import Mathlib

/-!
Shallow embedding of the `ask` cloud function and its `getDriveFileContent`
helper (src/index.js). External collaborators (drive, sheets, the model,
OAuth) are modelled as an `Env` of per-request call outcomes; `Except Unit`
marks a call that can throw/reject. JS falsiness of the string-typed request
fields is modelled on `Option String` (absent or empty string is falsy).
-/

deriving instance DecidableEq for Except

namespace KnowledgeOps

/-- Outcome of a stream returned by a drive call: either the fully buffered
content (the `end` event) or a stream `error` event, which rejects the
promise built around the stream. -/
inductive StreamOutcome where
  | content (s : String)
  | streamErr
deriving DecidableEq, Repr

/-- Per-file drive environment: the outcome of the `drive.files.export` call
and of the `drive.files.get (alt=media)` fallback call. `Except.error ()`
means the awaited call itself threw. -/
structure FileEnv where
  exportCall : Except Unit StreamOutcome
  mediaCall : Except Unit StreamOutcome
deriving DecidableEq, Repr

/-- Result of `getDriveFileContent`: the value the returned promise settles
with (`Except.error ()` = the promise rejects past the helper's boundary),
the export MIME type actually requested (`none` when no export call is
made), and whether the raw-media fallback call was issued. -/
structure ExtractResult where
  result : Except Unit String
  exportedAs : Option String
  mediaCalled : Bool
deriving DecidableEq, Repr

/-- JS `s.startsWith(pre)`, modelled on the character lists of the two
strings (kernel-reducible, unlike `String.startsWith`). -/
def strStartsWith (s pre : String) : Bool := pre.data.isPrefixOf s.data

/-- Embedding of `getDriveFileContent` (src/index.js lines 8-47). Supported
types (google-doc or `text/*`) are exported; an export-call throw triggers
the raw-media fallback; a fallback-call throw resolves with `""`; a stream
error event on either stream rejects. Unsupported types resolve with `""`
immediately, with no drive call. -/
def getDriveFileContent (fe : FileEnv) (mimeType : String) : ExtractResult :=
  if mimeType == "application/vnd.google-apps.document" || strStartsWith mimeType "text/" then
    let exportMimeType :=
      if mimeType == "application/vnd.google-apps.document" then "text/plain" else mimeType
    match fe.exportCall with
    | .ok (.content s) => ⟨.ok s, some exportMimeType, false⟩
    | .ok .streamErr => ⟨.error (), some exportMimeType, false⟩
    | .error _ =>
      match fe.mediaCall with
      | .ok (.content s) => ⟨.ok s, some exportMimeType, true⟩
      | .ok .streamErr => ⟨.error (), some exportMimeType, true⟩
      | .error _ => ⟨.ok "", some exportMimeType, true⟩
  else ⟨.ok "", none, false⟩

/-- A drive file as listed: `files(id, name, mimeType)`. -/
structure DriveFile where
  id : String
  name : String
  mimeType : String
deriving DecidableEq, Repr

/-- Response body shapes the handler sends. -/
inductive Body where
  | errorMsg (s : String)
  | response (s : String)
  | report (s : String)
  | accessToken (t : Option String)
deriving DecidableEq, Repr

/-- An HTTP response: status code and JSON body. -/
structure Response where
  status : Nat
  body : Body
deriving DecidableEq, Repr

/-- The single 500 response of the top-level catch (line 151). -/
def err500 : Response := ⟨500, .errorMsg "Something went wrong on the backend."⟩

/-- Side effects observed during one request: the prompts sent to
`model.generateContent`, and the row appended to the sheet (if logging
succeeded). -/
structure Trace where
  modelPrompts : List String := []
  loggedRow : Option (List String) := none
deriving DecidableEq, Repr

/-- Per-request environment: outcomes of every outbound call the handler
may make, plus the clock and the JS date parser. -/
structure Env where
  folderLookup : Except Unit (Option (List String))
  childrenList : Except Unit (Option (List DriveFile))
  fileEnv : String → FileEnv
  genAnswer : String → Except Unit String
  userinfo : Except Unit (Option String)
  sheetAppend : Except Unit Unit
  sheetGet : Except Unit (Option (List (List String)))
  parseDate : String → Option Int
  now : Int
  nowISO : String
  getToken : Except Unit (Option String)

/-- The request body fields, each possibly absent. -/
structure Request where
  type : Option String
  prompt : Option String
  accessToken : Option String
  code : Option String
deriving DecidableEq, Repr

/-- JS falsiness of a possibly-absent string: `undefined` and `""` are
falsy. -/
def falsy : Option String → Bool
  | none => true
  | some s => s == ""

/-- The caller-side `.catch(e => '')` on each extraction promise (line 80):
a rejection becomes the empty string. -/
def caught : Except Unit String → String
  | .ok s => s
  | .error _ => ""

/-- `allContents.filter(c => c).join('\n\n---\n\n')` (line 83). -/
def assembleContext (contents : List String) : String :=
  String.intercalate "\n\n---\n\n" (contents.filter (fun c => c != ""))

/-- The per-child extraction results in listing order, rejections caught to
`""` (lines 79-82). -/
def extractedContents (env : Env) (files : List DriveFile) : List String :=
  files.map (fun f => caught (getDriveFileContent (env.fileEnv f.id) f.mimeType).result)

/-- The gemini flow's context assembly (lines 64-85): empty unless the
folder lookup finds a folder and the children listing returns a non-empty
file list; a throw of either listing call propagates. -/
def contextFor (env : Env) : Except Unit String :=
  match env.folderLookup with
  | .error e => .error e
  | .ok (some (_ :: _)) =>
    match env.childrenList with
    | .error e => .error e
    | .ok (some files) =>
      .ok (if files.length > 0 then assembleContext (extractedContents env files) else "")
    | .ok none => .ok ""
  | .ok _ => .ok ""

/-- The augmented prompt sent to the model in the gemini flow (line 87). -/
def enhancedPrompt (context prompt : String) : String :=
  "Based on the following context, please answer the user's question. If the context does not contain the answer, say so.\n\nCONTEXT:\n---\n"
    ++ context ++ "\n---\n\nQUESTION: " ++ prompt

/-- The best-effort logging step (lines 93-103): resolve the email
(`|| 'unknown'` on a falsy email), append `[now, email, prompt]`; any
failure is caught and yields no logged row. -/
def attemptLog (env : Env) (prompt : String) : Option (List String) :=
  match env.userinfo with
  | .error _ => none
  | .ok emailOpt =>
    let userEmail :=
      match emailOpt with
      | some e => if e == "" then "unknown" else e
      | none => "unknown"
    match env.sheetAppend with
    | .error _ => none
    | .ok _ => some [env.nowISO, userEmail, prompt]

/-- The gemini flow after validation (lines 64-105). -/
def geminiRun (env : Env) (prompt : String) : Response × Trace :=
  match contextFor env with
  | .error _ => (err500, {})
  | .ok context =>
    let ep := enhancedPrompt context prompt
    match env.genAnswer ep with
    | .error _ => (err500, { modelPrompts := [ep] })
    | .ok answer =>
      (⟨200, .response answer⟩, { modelPrompts := [ep], loggedRow := attemptLog env prompt })

/-- `new Date(row[0]) > sevenDaysAgo` (lines 122-124): a missing or
unparseable column 0 gives an Invalid Date, whose NaN comparison is false;
otherwise the parsed time must be strictly after now minus 7 days. -/
def isRecent (parse : String → Option Int) (now : Int) (row : List String) : Bool :=
  match row.head? with
  | none => false
  | some s =>
    match parse s with
    | none => false
    | some t => decide (t > now - 7 * 24 * 60 * 60 * 1000)

/-- `` `- ${row[2]}` `` with JS's `undefined` rendering when the row has no
third column. -/
def bulletOf (row : List String) : String :=
  "- " ++ (row.get? 2).getD "undefined"

/-- `rows.slice(1).filter(...).map(...)` (lines 122-125). -/
def recentQuestions (parse : String → Option Int) (now : Int)
    (rows : List (List String)) : List String :=
  ((rows.drop 1).filter (isRecent parse now)).map bulletOf

/-- Fixed message for an absent or header-only sheet (line 118). -/
def emptySheetMsg : String :=
  "The log sheet is empty or only contains a header. No report to generate."

/-- Fixed message for no recent questions (line 128). -/
def noQuestionsMsg : String := "No questions have been asked in the last 7 days."

/-- The report prompt wrapper (line 132). -/
def reportPrompt (questionsText : String) : String :=
  "As an operations analyst for a Virtual Assistant company, review the following list of questions asked by our VAs over the last week. Generate a brief, professional report for management. The report should identify 2-3 key themes or common areas of confusion, point out potential gaps in our training or documentation, and suggest specific, actionable improvements.\n\nQuestions Asked This Week:\n"
    ++ questionsText

/-- The report flow after validation (lines 110-138). -/
def reportRun (env : Env) : Response × Trace :=
  match env.sheetGet with
  | .error _ => (err500, {})
  | .ok none => (⟨200, .report emptySheetMsg⟩, {})
  | .ok (some rows) =>
    if rows.length ≤ 1 then (⟨200, .report emptySheetMsg⟩, {})
    else
      let rq := recentQuestions env.parseDate env.now rows
      if rq.length = 0 then (⟨200, .report noQuestionsMsg⟩, {})
      else
        let rp := reportPrompt (String.intercalate "\n" rq)
        match env.genAnswer rp with
        | .error _ => (err500, { modelPrompts := [rp] })
        | .ok text => (⟨200, .report text⟩, { modelPrompts := [rp] })

/-- The full handler (lines 49-153): dispatch on `type`, validate required
fields by JS falsiness, run the selected flow, map any propagated throw to
the generic 500. -/
def ask (env : Env) (req : Request) : Response × Trace :=
  if req.type == some "gemini" then
    if falsy req.prompt || falsy req.accessToken then
      (⟨400, .errorMsg "A prompt and access token are required."⟩, {})
    else geminiRun env (req.prompt.getD "")
  else if req.type == some "report" then
    if falsy req.accessToken then (⟨400, .errorMsg "Access token required."⟩, {})
    else reportRun env
  else if req.type == some "token" then
    if falsy req.code then (⟨400, .errorMsg "A code is required."⟩, {})
    else
      match env.getToken with
      | .error _ => (err500, {})
      | .ok t => (⟨200, .accessToken t⟩, {})
  else (⟨400, .errorMsg "A valid request type was not provided."⟩, {})

/-- Spec-side view of the context: the non-empty successful per-file
extractions, in file-listing order. A file whose extraction rejects, or
resolves with the empty string, contributes nothing. -/
def successfulNonEmpty (env : Env) (files : List DriveFile) : List String :=
  files.filterMap (fun f =>
    match (getDriveFileContent (env.fileEnv f.id) f.mimeType).result with
    | .ok s => if s = "" then none else some s
    | .error _ => none)

/-- A baseline environment for concrete evaluations: no folder, no sheet
rows, every drive call throws, the model answers `"answer"`. -/
def envBase : Env :=
  ⟨.ok none, .ok none, fun _ => ⟨.error (), .error ()⟩, fun _ => .ok "answer",
    .ok (some "va@example.com"), .ok (), .ok none, fun _ => none, 0,
    "1970-01-01T00:00:00.000Z", .ok (some "tok")⟩

/-- The spec's example folder: `[A(text/plain, "x"), B(application/pdf),
C(google-doc, "y")]`. -/
def filesABC : List DriveFile :=
  [⟨"A", "a.txt", "text/plain"⟩, ⟨"B", "b.pdf", "application/pdf"⟩,
   ⟨"C", "c", "application/vnd.google-apps.document"⟩]

/-- Environment realizing the spec's example folder, where exporting A
yields `"x"` and exporting C yields `"y"`. -/
def env1 : Env :=
  { envBase with
    folderLookup := .ok (some ["folder1"])
    childrenList := .ok (some filesABC)
    fileEnv := fun id =>
      if id == "A" then ⟨.ok (.content "x"), .error ()⟩
      else if id == "C" then ⟨.ok (.content "y"), .error ()⟩
      else ⟨.error (), .error ()⟩ }

/-- A header row, one row with a parseable recent timestamp `"t1"`, and one
row with an unparseable timestamp. -/
def rows3 : List (List String) :=
  [["header", "user", "question"], ["t1", "u1", "q1"], ["bad", "u2", "q2"]]

/-- Report environment over `rows3`; only `"t1"` parses (to time 100, with
now = 0, so it is within the 7-day window). -/
def env3 : Env :=
  { envBase with
    sheetGet := .ok (some rows3)
    parseDate := fun s => if s == "t1" then some 100 else none }

/-- Report environment whose sheet has only a header row. -/
def env7 : Env := { envBase with sheetGet := .ok (some [["h", "h", "h"]]) }

/-- Report environment with a logged row whose timestamp does not parse, so
the recent set is empty. -/
def env7c : Env := { envBase with sheetGet := .ok (some [["h"], ["old", "u", "q"]]) }

/-- Environment whose OAuth code exchange throws. -/
def env8 : Env := { envBase with getToken := .error () }

/-- Environment whose folder-lookup drive call throws. -/
def env8g : Env := { envBase with folderLookup := .error () }

/-- Environment whose sheet read throws. -/
def env8r : Env := { envBase with sheetGet := .error () }

/-- The truthiness filter over the caught extraction results equals the
spec-side list of non-empty successful extractions. -/
theorem filter_extractedContents (env : Env) (files : List DriveFile) :
    (extractedContents env files).filter (fun c => c != "") = successfulNonEmpty env files := by
  induction files with
  | nil => rfl
  | cons f fs ih =>
    cases hr : (getDriveFileContent (env.fileEnv f.id) f.mimeType).result with
    | ok s =>
      by_cases hs : s = ""
      · subst hs
        simpa [extractedContents, successfulNonEmpty, List.filter_cons, caught, hr] using ih
      · simpa [extractedContents, successfulNonEmpty, List.filter_cons, caught, hr, hs] using ih
    | error e =>
      simpa [extractedContents, successfulNonEmpty, List.filter_cons, caught, hr] using ih

/-- C1: in the gemini flow, when the folder is found and the children
listing succeeds, the assembled context is the concatenation of the
non-empty successful per-file extractions, in file-listing order, joined
by `"\n\n---\n\n"` (failed or empty extractions contribute neither text nor
a delimiter); and the context is `""` when the folder is absent, the folder
has no children, or every extraction fails. -/
theorem gemini_context_assembly (env : Env) :
    (∀ fid rest files, env.folderLookup = .ok (some (fid :: rest)) →
        env.childrenList = .ok (some files) →
        contextFor env =
          .ok (String.intercalate "\n\n---\n\n" (successfulNonEmpty env files))) ∧
    (∀ o, env.folderLookup = .ok o → (o = none ∨ o = some []) →
        contextFor env = .ok "") ∧
    (∀ fid rest, env.folderLookup = .ok (some (fid :: rest)) →
        env.childrenList = .ok none → contextFor env = .ok "") ∧
    (∀ fid rest files, env.folderLookup = .ok (some (fid :: rest)) →
        env.childrenList = .ok (some files) →
        (∀ f ∈ files, (getDriveFileContent (env.fileEnv f.id) f.mimeType).result = .error ()) →
        contextFor env = .ok "") := by
  have hmain : ∀ fid rest files, env.folderLookup = .ok (some (fid :: rest)) →
      env.childrenList = .ok (some files) →
      contextFor env =
        .ok (String.intercalate "\n\n---\n\n" (successfulNonEmpty env files)) := by
    intro fid rest files h1 h2
    unfold contextFor
    rw [h1, h2]
    cases files with
    | nil => rfl
    | cons f fs =>
      simp only [List.length_cons, if_pos (Nat.succ_pos _)]
      rw [assembleContext, filter_extractedContents]
  refine ⟨hmain, ?_, ?_, ?_⟩
  · intro o h1 h2
    unfold contextFor
    rw [h1]
    rcases h2 with h2 | h2 <;> subst h2 <;> rfl
  · intro fid rest h1 h2
    unfold contextFor
    rw [h1, h2]
  · intro fid rest files h1 h2 hall
    rw [hmain fid rest files h1 h2]
    have : successfulNonEmpty env files = [] := by
      rw [successfulNonEmpty, List.filterMap_eq_nil_iff]
      intro f hf
      rw [hall f hf]
    rw [this]
    rfl

/-- C1 witness: on the spec's example folder (A text/plain with content
"x", B application/pdf, C google-doc with content "y"), the context is
exactly `"x\n\n---\n\ny"`. -/
theorem gemini_context_assembly_witness :
    contextFor env1 = .ok "x\n\n---\n\ny" := by
  have h := (gemini_context_assembly env1).1 "folder1" [] filesABC rfl rfl
  rw [h]
  rfl

/-- C4: the extraction helper exports a google-doc as `text/plain`; exports
any other `text/*` type using that same MIME type; returns `""` immediately
with no drive call for any other type; and when the export call for a
supported type throws, it issues the raw-media fallback, resolving with
`""` if that fallback call also throws. -/
theorem drive_extraction_dispatch (fe : FileEnv) (mimeType : String) :
    (mimeType = "application/vnd.google-apps.document" →
        (getDriveFileContent fe mimeType).exportedAs = some "text/plain") ∧
    (mimeType ≠ "application/vnd.google-apps.document" →
        strStartsWith mimeType "text/" = true →
        (getDriveFileContent fe mimeType).exportedAs = some mimeType) ∧
    (mimeType ≠ "application/vnd.google-apps.document" →
        strStartsWith mimeType "text/" = false →
        getDriveFileContent fe mimeType = ⟨.ok "", none, false⟩) ∧
    ((mimeType = "application/vnd.google-apps.document" ∨
        strStartsWith mimeType "text/" = true) →
      fe.exportCall = .error () →
        (getDriveFileContent fe mimeType).mediaCalled = true ∧
        (fe.mediaCall = .error () →
          (getDriveFileContent fe mimeType).result = .ok "")) := by
  refine ⟨?_, ?_, ?_, ?_⟩
  · intro h
    subst h
    unfold getDriveFileContent
    simp only [beq_self_eq_true, Bool.true_or, if_true, if_pos rfl]
    rcases fe.exportCall with e | so
    · rcases fe.mediaCall with e' | so'
      · rfl
      · rcases so' with s | _ <;> rfl
    · rcases so with s | _ <;> rfl
  · intro hne hsw
    unfold getDriveFileContent
    have hb : (mimeType == "application/vnd.google-apps.document") = false := by
      simpa using hne
    simp only [hb, hsw, Bool.false_or, if_true, if_false]
    rcases fe.exportCall with e | so
    · rcases fe.mediaCall with e' | so'
      · rfl
      · rcases so' with s | _ <;> rfl
    · rcases so with s | _ <;> rfl
  · intro hne hsw
    unfold getDriveFileContent
    have hb : (mimeType == "application/vnd.google-apps.document") = false := by
      simpa using hne
    simp [hb, hsw]
  · intro hsup hexp
    have hcond : (mimeType == "application/vnd.google-apps.document" ||
        strStartsWith mimeType "text/") = true := by
      rcases hsup with h | h
      · subst h; simp
      · simp [h]
    unfold getDriveFileContent
    rw [if_pos hcond, hexp]
    constructor
    · rcases fe.mediaCall with e' | so'
      · rfl
      · rcases so' with s | _ <;> rfl
    · intro hmed
      rw [hmed]

/-- C4 witness: concrete checks of all four branches — a google-doc exports
as `text/plain`; `text/plain` exports as itself; `application/pdf` is
skipped with no call; and with both calls throwing the fallback is issued
and the result is `""`. -/
theorem drive_extraction_dispatch_witness :
    (getDriveFileContent ⟨.ok (.content "y"), .error ()⟩
        "application/vnd.google-apps.document").exportedAs = some "text/plain" ∧
    (getDriveFileContent ⟨.ok (.content "x"), .error ()⟩ "text/plain").exportedAs =
      some "text/plain" ∧
    getDriveFileContent ⟨.ok (.content "x"), .error ()⟩ "application/pdf" =
      ⟨.ok "", none, false⟩ ∧
    ((getDriveFileContent ⟨.error (), .error ()⟩ "text/plain").mediaCalled = true ∧
      (getDriveFileContent ⟨.error (), .error ()⟩ "text/plain").result = .ok "") := by
  refine ⟨?_, ?_, ?_, ?_⟩
  · exact (drive_extraction_dispatch ⟨.ok (.content "y"), .error ()⟩
      "application/vnd.google-apps.document").1 rfl
  · exact (drive_extraction_dispatch ⟨.ok (.content "x"), .error ()⟩ "text/plain").2.1
      (by decide) (by decide)
  · exact (drive_extraction_dispatch ⟨.ok (.content "x"), .error ()⟩ "application/pdf").2.2.1
      (by decide) (by decide)
  · have h := (drive_extraction_dispatch ⟨.error (), .error ()⟩ "text/plain").2.2.2
      (Or.inr (by decide)) rfl
    exact ⟨h.1, h.2 rfl⟩

/-- C5 counterexample: as stated ("never raises past its own boundary"),
the claim is false — on a supported type whose export stream emits an
`error` event, the helper's promise rejects. -/
theorem extraction_never_raises_counterexample :
    ¬ ∀ (fe : FileEnv) (mimeType : String),
        ∃ s, (getDriveFileContent fe mimeType).result = Except.ok s := by
  intro h
  obtain ⟨s, hs⟩ := h ⟨.ok .streamErr, .ok (.content "")⟩ "text/plain"
  have hev : (getDriveFileContent ⟨.ok .streamErr, .ok (.content "")⟩ "text/plain").result =
      Except.error () := by decide
  rw [hev] at hs
  exact Except.noConfusion hs

/-- C5 amended: the helper resolves with a string for every input except
exactly when a stream `error` event fires on the export stream, or on the
fallback stream after an export-call throw, of a supported type — in which
case it rejects past its boundary, and the gemini caller's catch converts
that rejection to the empty string. -/
theorem extraction_result_boundary (fe : FileEnv) (mimeType : String) :
    ((getDriveFileContent fe mimeType).result = Except.error () ↔
      ((mimeType = "application/vnd.google-apps.document" ∨
          strStartsWith mimeType "text/" = true) ∧
        (fe.exportCall = .ok .streamErr ∨
          (fe.exportCall = .error () ∧ fe.mediaCall = .ok .streamErr)))) ∧
    ((getDriveFileContent fe mimeType).result = Except.error () →
      caught (getDriveFileContent fe mimeType).result = "") := by
  refine ⟨?_, fun h => by rw [h]; rfl⟩
  by_cases hc : (mimeType == "application/vnd.google-apps.document" ||
      strStartsWith mimeType "text/") = true
  · have hsup : mimeType = "application/vnd.google-apps.document" ∨
        strStartsWith mimeType "text/" = true := by
      rcases Bool.or_eq_true_iff.mp hc with h | h
      · exact Or.inl (by simpa using h)
      · exact Or.inr h
    unfold getDriveFileContent
    rw [if_pos hc]
    rcases hec : fe.exportCall with e | so
    · rcases hmc : fe.mediaCall with e' | so'
      · simp [hsup, hec, hmc]
      · rcases so' with s | _ <;> simp [hsup, hec, hmc]
    · rcases so with s | _ <;> simp [hsup, hec]
  · have hnsup : ¬ (mimeType = "application/vnd.google-apps.document" ∨
        strStartsWith mimeType "text/" = true) := by
      intro h
      apply hc
      rcases h with h | h
      · subst h; simp
      · simp [h]
    unfold getDriveFileContent
    rw [if_neg (by simpa using hc)]
    simp [hnsup]

/-- C5 witness (amended claim): a `text/plain` export stream error makes
the helper reject, and the caller's catch turns that rejection into `""`. -/
theorem extraction_result_boundary_witness :
    (getDriveFileContent ⟨.ok .streamErr, .error ()⟩ "text/plain").result =
        Except.error () ∧
    caught (getDriveFileContent ⟨.ok .streamErr, .error ()⟩ "text/plain").result = "" := by
  have hiff := (extraction_result_boundary ⟨.ok .streamErr, .error ()⟩ "text/plain").1.mpr
    ⟨Or.inr (by decide), Or.inl rfl⟩
  exact ⟨hiff, (extraction_result_boundary ⟨.ok .streamErr, .error ()⟩ "text/plain").2 hiff⟩

/-- C2: a gemini request missing `prompt` or `accessToken`, a report
request missing `accessToken`, a token request missing `code`, and a
request whose `type` is absent or unrecognized, are each rejected with
status 400. -/
theorem request_validation (env : Env) (req : Request) :
    (req.type = some "gemini" → (req.prompt = none ∨ req.accessToken = none) →
        (ask env req).1.status = 400) ∧
    (req.type = some "report" → req.accessToken = none → (ask env req).1.status = 400) ∧
    (req.type = some "token" → req.code = none → (ask env req).1.status = 400) ∧
    (req.type ≠ some "gemini" → req.type ≠ some "report" → req.type ≠ some "token" →
        (ask env req).1.status = 400) := by
  refine ⟨?_, ?_, ?_, ?_⟩
  · intro ht hmiss
    rcases hmiss with h | h <;> simp [ask, ht, h, falsy]
  · intro ht h
    simp [ask, ht, h, falsy]
  · intro ht h
    simp [ask, ht, h, falsy]
  · intro h1 h2 h3
    simp [ask, beq_eq_false_iff_ne.mpr h1, beq_eq_false_iff_ne.mpr h2,
      beq_eq_false_iff_ne.mpr h3]

/-- C2 witness: concrete requests exercising all four rejection rules. -/
theorem request_validation_witness :
    (ask envBase ⟨some "gemini", none, some "tok", none⟩).1.status = 400 ∧
    (ask envBase ⟨some "report", some "p", none, none⟩).1.status = 400 ∧
    (ask envBase ⟨some "token", none, none, none⟩).1.status = 400 ∧
    (ask envBase ⟨some "bogus", some "p", some "tok", some "c"⟩).1.status = 400 := by
  refine ⟨?_, ?_, ?_, ?_⟩
  · exact (request_validation envBase _).1 rfl (Or.inl rfl)
  · exact (request_validation envBase _).2.1 rfl rfl
  · exact (request_validation envBase _).2.2.1 rfl rfl
  · exact (request_validation envBase _).2.2.2 (by decide) (by decide) (by decide)

/-- C10: a required field that is present but equal to `""` is falsy and
hence treated as missing — gemini with empty `prompt` or `accessToken`,
report with empty `accessToken`, and token with empty `code` all get
status 400. -/
theorem empty_string_fields_rejected (env : Env) (p a c : Option String) :
    (ask env ⟨some "gemini", some "", a, c⟩).1.status = 400 ∧
    (ask env ⟨some "gemini", p, some "", c⟩).1.status = 400 ∧
    (ask env ⟨some "report", p, some "", c⟩).1.status = 400 ∧
    (ask env ⟨some "token", p, a, some ""⟩).1.status = 400 := by
  refine ⟨?_, ?_, ?_, ?_⟩ <;> simp [ask, falsy]

/-- The response component of the gemini flow, as a function of the context
assembly and the model call only (logging affects just the trace). -/
theorem geminiRun_fst (env : Env) (prompt : String) :
    (geminiRun env prompt).1 =
      match contextFor env with
      | .error _ => err500
      | .ok context =>
        match env.genAnswer (enhancedPrompt context prompt) with
        | .error _ => err500
        | .ok answer => ⟨200, .response answer⟩ := by
  unfold geminiRun
  cases contextFor env with
  | error e => rfl
  | ok ctx =>
    dsimp only
    cases env.genAnswer (enhancedPrompt ctx prompt) <;> rfl

/-- C6: the gemini flow's response (status and body) does not depend on the
outcome of the best-effort logging step — replacing the identity-lookup and
sheet-append outcomes by anything, including failures, leaves the response
unchanged. -/
theorem gemini_logging_isolated (env : Env) (prompt : String)
    (u : Except Unit (Option String)) (a : Except Unit Unit) :
    (geminiRun { env with userinfo := u, sheetAppend := a } prompt).1 =
      (geminiRun env prompt).1 := by
  have hctx : contextFor { env with userinfo := u, sheetAppend := a } = contextFor env := by
    cases env
    rfl
  have hga : ({ env with userinfo := u, sheetAppend := a } : Env).genAnswer =
      env.genAnswer := by
    cases env
    rfl
  rw [geminiRun_fst, geminiRun_fst, hctx, hga]

/-- C9: the first row of the sheet read (the header) is unconditionally
dropped — `recentQuestions` is computed over the tail only, and the whole
report outcome is unchanged when the header row is replaced by any other
row, including one with a timestamp inside the 7-day window. -/
theorem report_header_excluded (env : Env) (parse : String → Option Int) (now : Int)
    (hdr hdr' : List String) (rest : List (List String)) :
    recentQuestions parse now (hdr :: rest) =
      (rest.filter (isRecent parse now)).map bulletOf ∧
    reportRun { env with sheetGet := .ok (some (hdr :: rest)) } =
      reportRun { env with sheetGet := .ok (some (hdr' :: rest)) } := by
  constructor
  · rfl
  · cases env
    rfl

/-- C7: the report flow short-circuits with 200 and a fixed message — and
no model call — when the sheet read returns no rows or at most one row
(the "log sheet is empty" message), and when the filtered recent set is
empty (the "no questions" message). -/
theorem report_empty_short_circuits (env : Env) :
    (env.sheetGet = .ok none →
        reportRun env = (⟨200, .report emptySheetMsg⟩, ⟨[], none⟩)) ∧
    (∀ rows, env.sheetGet = .ok (some rows) → rows.length ≤ 1 →
        reportRun env = (⟨200, .report emptySheetMsg⟩, ⟨[], none⟩)) ∧
    (∀ rows, env.sheetGet = .ok (some rows) → 1 < rows.length →
        recentQuestions env.parseDate env.now rows = [] →
        reportRun env = (⟨200, .report noQuestionsMsg⟩, ⟨[], none⟩)) := by
  refine ⟨?_, ?_, ?_⟩
  · intro h
    unfold reportRun
    rw [h]
  · intro rows h hlen
    unfold reportRun
    rw [h]
    simp only [if_pos hlen]
  · intro rows h hlen hempty
    unfold reportRun
    rw [h]
    dsimp only
    rw [if_neg (show ¬rows.length ≤ 1 by omega), hempty]
    rfl

/-- C7 witness: an absent sheet, a header-only sheet, and a sheet whose only
logged row has an unparseable timestamp, each short-circuit with the fixed
message and an empty model-call trace. -/
theorem report_empty_short_circuits_witness :
    reportRun envBase = (⟨200, .report emptySheetMsg⟩, ⟨[], none⟩) ∧
    reportRun env7 = (⟨200, .report emptySheetMsg⟩, ⟨[], none⟩) ∧
    reportRun env7c = (⟨200, .report noQuestionsMsg⟩, ⟨[], none⟩) := by
  refine ⟨?_, ?_, ?_⟩
  · exact (report_empty_short_circuits envBase).1 rfl
  · exact (report_empty_short_circuits env7).2.1 [["h", "h", "h"]] rfl (by decide)
  · exact (report_empty_short_circuits env7c).2.2 [["h"], ["old", "u", "q"]] rfl
      (by decide) (by decide)

/-- C3: a logged row (a row after the header) survives the filter iff its
column-0 value parses to a time strictly after now minus 7 days (so an
unparseable column 0 excludes the row); and when the recent set is
non-empty the single model prompt contains exactly one `"- "` bullet per
surviving row, built from its column 2, joined in original row order. -/
theorem report_recent_filter (env : Env) :
    (∀ (rows : List (List String)) (row : List String),
        row ∈ (rows.drop 1).filter (isRecent env.parseDate env.now) ↔
        (row ∈ rows.drop 1 ∧
          ∃ t, row.head?.bind env.parseDate = some t ∧
            t > env.now - 7 * 24 * 60 * 60 * 1000)) ∧
    (∀ rows : List (List String), env.sheetGet = .ok (some rows) → 1 < rows.length →
        recentQuestions env.parseDate env.now rows ≠ [] →
        (reportRun env).2.modelPrompts =
          [reportPrompt (String.intercalate "\n"
            (((rows.drop 1).filter (isRecent env.parseDate env.now)).map bulletOf))]) := by
  constructor
  · intro rows row
    rw [List.mem_filter]
    refine and_congr_right fun _ => ?_
    unfold isRecent
    cases hh : row.head? with
    | none => simp
    | some s =>
      cases hp : env.parseDate s with
      | none => simp [hp]
      | some t => simp [hp]
  · intro rows h hlen hne
    unfold reportRun
    rw [h]
    dsimp only
    rw [if_neg (show ¬rows.length ≤ 1 by omega),
      if_neg (fun hc => hne (List.length_eq_zero.mp hc))]
    cases env.genAnswer (reportPrompt (String.intercalate "\n"
        (recentQuestions env.parseDate env.now rows))) <;> rfl

/-- C3 witness: over `rows3`, the row timestamped `"t1"` (parsing to a
recent time) survives, the `"bad"` row does not, and the model prompt is
exactly the report prompt around the single bullet `"- q1"`. -/
theorem report_recent_filter_witness :
    ["t1", "u1", "q1"] ∈ (rows3.drop 1).filter (isRecent env3.parseDate env3.now) ∧
    (["bad", "u2", "q2"] ∈ (rows3.drop 1).filter (isRecent env3.parseDate env3.now) →
      False) ∧
    (reportRun env3).2.modelPrompts = [reportPrompt "- q1"] := by
  refine ⟨?_, ?_, ?_⟩
  · exact ((report_recent_filter env3).1 rows3 ["t1", "u1", "q1"]).mpr
      ⟨by decide, 100, by decide, by decide⟩
  · intro hmem
    obtain ⟨-, t, hp, -⟩ := ((report_recent_filter env3).1 rows3 ["bad", "u2", "q2"]).mp hmem
    have hnone : (["bad", "u2", "q2"].head?.bind env3.parseDate) = (none : Option Int) := by
      decide
    rw [hnone] at hp
    exact Option.noConfusion hp
  · have h2 := (report_recent_filter env3).2 rows3 rfl (by decide) (by decide)
    rw [h2]
    rfl

/-- The gemini flow's response is either the generic 500 or a 200. -/
theorem geminiRun_response_cases (env : Env) (prompt : String) :
    (geminiRun env prompt).1 = err500 ∨ (geminiRun env prompt).1.status = 200 := by
  rw [geminiRun_fst]
  cases contextFor env with
  | error e => exact Or.inl rfl
  | ok ctx =>
    dsimp only
    cases env.genAnswer (enhancedPrompt ctx prompt) with
    | error e => exact Or.inl rfl
    | ok ans => exact Or.inr rfl

/-- The report flow's response is either the generic 500 or a 200. -/
theorem reportRun_response_cases (env : Env) :
    (reportRun env).1 = err500 ∨ (reportRun env).1.status = 200 := by
  unfold reportRun
  dsimp only
  repeat' split
  all_goals first
    | exact Or.inl rfl
    | exact Or.inr rfl

/-- Every response of the handler is the generic 500, a 200, or a 400. -/
theorem ask_response_cases (env : Env) (req : Request) :
    (ask env req).1 = err500 ∨ (ask env req).1.status = 200 ∨
      (ask env req).1.status = 400 := by
  unfold ask
  repeat' split
  all_goals first
    | exact Or.inr (Or.inr rfl)
    | exact Or.inr (Or.inl rfl)
    | exact Or.inl rfl
    | exact (geminiRun_response_cases env (req.prompt.getD "")).imp id Or.inl
    | exact (reportRun_response_cases env).imp id Or.inl

/-- C8: whenever the handler responds 500, the response is exactly the
generic `{ error: "Something went wrong on the backend." }` — no internal
failure detail ever reaches the caller; and a non-swallowed upstream
failure (folder lookup in a validated gemini request, sheet read in a
validated report request, code exchange in a validated token request) does
produce exactly that generic 500. -/
theorem generic_500_body (env : Env) (req : Request) :
    ((ask env req).1.status = 500 → (ask env req).1 = err500) ∧
    (req.type = some "gemini" → falsy req.prompt = false → falsy req.accessToken = false →
        env.folderLookup = .error () → (ask env req).1 = err500) ∧
    (req.type = some "report" → falsy req.accessToken = false →
        env.sheetGet = .error () → (ask env req).1 = err500) ∧
    (req.type = some "token" → falsy req.code = false →
        env.getToken = .error () → (ask env req).1 = err500) := by
  refine ⟨?_, ?_, ?_, ?_⟩
  · intro h500
    rcases ask_response_cases env req with h | h | h
    · exact h
    · rw [h500] at h
      omega
    · rw [h500] at h
      omega
  · intro ht hp ha hf
    have : ask env req = geminiRun env (req.prompt.getD "") := by
      simp [ask, ht, hp, ha]
    rw [this, geminiRun_fst]
    unfold contextFor
    rw [hf]
  · intro ht ha hs
    have : ask env req = reportRun env := by
      simp [ask, ht, ha]
    rw [this]
    unfold reportRun
    rw [hs]
  · intro ht hc hg
    simp [ask, ht, hc, hg]

/-- C8 witness: a throwing code exchange, a throwing folder lookup, and a
throwing sheet read each yield exactly the generic 500 body. -/
theorem generic_500_body_witness :
    (ask env8 ⟨some "token", none, none, some "c0de"⟩).1 = err500 ∧
    (ask env8g ⟨some "gemini", some "q", some "tok", none⟩).1 = err500 ∧
    (ask env8r ⟨some "report", none, some "tok", none⟩).1 = err500 := by
  refine ⟨?_, ?_, ?_⟩
  · exact (generic_500_body env8 ⟨some "token", none, none, some "c0de"⟩).1 rfl
  · exact (generic_500_body env8g ⟨some "gemini", some "q", some "tok", none⟩).2.1
      rfl rfl rfl rfl
  · exact (generic_500_body env8r ⟨some "report", none, some "tok", none⟩).2.2.1
      rfl rfl rfl

end KnowledgeOps
